import Mathlib

/-!
Shallow embedding of `bsb/simulation/targetting.py` (classes `TargetsNeurons`
and `TargetsSections`), together with theorems checking the natural-language
specification of the target-resolution engine against this code.

Modelling conventions:
* numpy float positions and thresholds are modelled as rationals (`ℚ`),
  identifiers as integers (`ℤ`);
* a Python attribute that may be unset (`hasattr` / `getattr` with default)
  is modelled as `PyAttr` or `Option`;
* a Python function that may raise is modelled with `Except` (the raised
  exception's data) or `Option` (`none` standing for abnormal termination);
* the external collaborators (the sklearn KD-tree, MPI broadcast,
  `random.sample` / `random.choice`) are modelled by their documented
  contracts, stated as explicit `...Spec` predicates or as small functional
  models, each marked in its doc comment.
-/

namespace BSB

/-! ## Data model -/

/-- A cell record as one row of `scaffold.get_cells_by_type`: the columns
are `(id, type, x, y, z)`. -/
structure Cell where
  id : ℤ
  ty : ℤ
  x : ℚ
  y : ℚ
  z : ℚ
deriving DecidableEq, Repr

/-- Cell-type descriptor as used by `_targets_cell_type`
(`scaffold.get_cell_type(name)` exposing `.entity`) and by
`_targets_representatives` (`.relay`, `.name`). -/
structure CellTypeDesc where
  name : String
  relay : Bool
  entity : Bool
deriving DecidableEq, Repr

/-- The network data provider (`self.scaffold`) as consumed by the
targetting code: per-type cell rows, per-type entity identifiers, type
descriptors, label expansion (`get_labels`) and label membership
(`scaffold.labels[label]`), and the configured network extents `X`, `Z`. -/
structure Scaffold where
  cellsByType : String → List Cell
  entitiesByType : String → List ℤ
  typeDesc : String → CellTypeDesc
  getLabels : String → List String
  labelled : String → List ℤ
  X : ℚ
  Z : ℚ

/-- A possibly-unset Python instance attribute (`hasattr` distinguishes
`unset` from `set`). -/
inductive PyAttr (α : Type) where
  | unset : PyAttr α
  | set : α → PyAttr α
deriving DecidableEq, Repr

/-! ## DistributedTargetCoordinator: `initialise_targets` / `get_targets`
(`targetting.py` lines 156-195) -/

/-- Data carried by the `ParallelIntegrityError` raised in
`get_targets`/`get_patterns`: the message and the process rank
(`self.adapter.pc_id`) passed as second constructor argument. -/
structure ParallelIntegrityErr where
  message : String
  rank : ℕ
deriving DecidableEq, Repr

/-- The message of the error raised by `get_targets` before initialisation
(source lines 162-166). -/
def targetsCheckpointMessage : String :=
  "MPI process %rank% failed a checkpoint." ++
    " `initialise_targets` should always be called before `get_targets` on all MPI processes."

/-- The message of the error raised by `get_patterns` before initialisation
(source lines 174-178). -/
def patternsCheckpointMessage : String :=
  "MPI process %rank% failed a checkpoint." ++
    " `initialise_patterns` should always be called before `get_patterns` on all MPI processes."

/-- `TargetsNeurons.get_targets`: return `self._targets` if the attribute is
set, else raise `ParallelIntegrityError(message, self.adapter.pc_id)`. -/
def get_targets {α : Type} (targetsAttr : PyAttr α) (pc_id : ℕ) :
    Except ParallelIntegrityErr α :=
  match targetsAttr with
  | .set t => .ok t
  | .unset => .error ⟨targetsCheckpointMessage, pc_id⟩

/-- `TargetsNeurons.get_patterns`: return `self._patterns` if the attribute
is set, else raise `ParallelIntegrityError(message, self.adapter.pc_id)`. -/
def get_patterns {α : Type} (patternsAttr : PyAttr α) (pc_id : ℕ) :
    Except ParallelIntegrityErr α :=
  match patternsAttr with
  | .set p => .ok p
  | .unset => .error ⟨patternsCheckpointMessage, pc_id⟩

/-- The rank-local value produced inside `initialise_targets` /
`initialise_patterns` before the broadcast: rank 0 computes
(`self._get_targets()` resp. `self.create_patterns()`), every other rank
holds the `None` placeholder. -/
def rankContribution {α : Type} (rootValue : α) (rank : ℕ) : Option α :=
  if rank = 0 then some rootValue else none

/-- Models the external collective broadcast
`self.scaffold.MPI.COMM_WORLD.bcast(value, root)`: every participating rank
receives the root rank's local value. -/
def bcast {α : Type} (root : ℕ) (localValues : ℕ → Option α) : Option α :=
  localValues root

/-- `TargetsNeurons.initialise_targets` as executed on one rank: compute the
rank-local value (resolver result on rank 0, `None` elsewhere), then store
the broadcast result in `self._targets`. -/
def initialise_targets {α : Type} (resolved : α) (rank : ℕ) : PyAttr (Option α) :=
  let _localTargets := rankContribution resolved rank
  PyAttr.set (bcast 0 (fun r => rankContribution resolved r))

/-- `TargetsNeurons.initialise_patterns` as executed on one rank: rank 0
delegates to `self.create_patterns()`, the rest contribute `None`; the
broadcast result is stored in `self._patterns`. -/
def initialise_patterns {α : Type} (createdPatterns : α) (rank : ℕ) :
    PyAttr (Option α) :=
  let _localPatterns := rankContribution createdPatterns rank
  PyAttr.set (bcast 0 (fun r => rankContribution createdPatterns r))

/-! ## Strategy dispatch (`TargetsNeurons.initialise`, lines 7-20, and the
class-level registry `neuron_targetting_types`, line 198) -/

/-- The neuron-targetting strategy names registered at class-definition time
by scanning the method names with standing `_targets_` at the front
(line 198), in source order. -/
def neuron_targetting_types : List String :=
  ["local", "cylinder", "cell_type", "representatives", "by_id", "by_label"]

/-- Message of the `NotImplementedError` raised by `TargetsNeurons.initialise`
for an unknown strategy (lines 15-19); it interpolates the strategy name and
the owning component (`self.node_name`). Quote characters of the original
format string are elided. -/
def unimplementedTargettingMessage (targetting node_name : String) : String :=
  "Unimplemented neuron targetting type " ++ targetting ++ " in " ++ node_name

/-- `TargetsNeurons.initialise`: look up the method named
`"_targets_" ++ self.targetting`; if absent raise `NotImplementedError`,
else store it as `self._get_targets` (modelled by returning the selected
strategy name). -/
def initialiseDispatch (targetting node_name : String) : Except String String :=
  if targetting ∈ neuron_targetting_types then .ok targetting
  else .error (unimplementedTargettingMessage targetting node_name)

/-! ## Spatial-local strategy (`_targets_local`, lines 22-46) -/

/-- Squared Euclidean 3D distance between a cell's position (columns 2:5 of
its row) and a query point. -/
def dist2 (c : Cell) (o : ℚ × ℚ × ℚ) : ℚ :=
  (c.x - o.1) ^ 2 + (c.y - o.2.1) ^ 2 + (c.z - o.2.2) ^ 2

/-- Models the external spatial index (sklearn `KDTree.query_radius`): the
indices, into the indexed point list, of every point whose distance to the
query point is at most `radius` (closed ball, here by squared comparison). -/
def queryRadius (cells : List Cell) (origin : ℚ × ℚ × ℚ) (radius : ℚ) :
    List ℕ :=
  (cells.enum.filter (fun p => decide (dist2 p.2 origin ≤ radius ^ 2))).map
    Prod.fst

/-- `TargetsNeurons._targets_local`. With exactly one declared cell type the
prebuilt tree for that type is queried and the returned indices are mapped
through the id column (`id_map[target_ids]`). With any other number of
declared types the pooling loop executes
`np.vstack((np.empty((0, 5)), cells[:, 2:5]))`, which raises a numpy
`ValueError` (a 5-column empty array stacked with 3-column position rows);
the abnormal termination is modelled as `none`. -/
def targetsLocal (sc : Scaffold) (cellTypes : List String)
    (origin : ℚ × ℚ × ℚ) (radius : ℚ) : Option (List ℤ) :=
  match cellTypes with
  | [t] =>
    let target_cells := sc.cellsByType t
    some ((queryRadius target_cells origin radius).filterMap
      (fun i => (target_cells.get? i).map Cell.id))
  | _ => none

/-! ## Cylinder strategy (`_targets_cylinder`, lines 48-81) -/

/-- `TargetsNeurons._targets_cylinder`. With exactly one declared cell type:
keep the rows whose position, projected on the (X, Z) columns and measured
from `(X/2, Z/2)`, has squared distance strictly below `radius ** 2`, and
return column 0 (the ids) as integers, in row order. With any other number
of declared types the function produces no value: the pooling loop raises
the same numpy `ValueError` as in `_targets_local`, and even apart from
that, the filtering and the `return` statement sit inside the single-type
branch, so the multi-type path falls off the end of the function (`None`).
Both abnormal outcomes are modelled as `none`. -/
def targetsCylinder (sc : Scaffold) (cellTypes : List String) (radius : ℚ) :
    Option (List ℤ) :=
  match cellTypes with
  | [t] =>
    let target_cells := sc.cellsByType t
    some ((target_cells.filter (fun c =>
      decide ((c.x - sc.X / 2) ^ 2 + (c.z - sc.Z / 2) ^ 2 < radius ^ 2))).map
        Cell.id)
  | _ => none

/-! ## Cell-type strategy (`_targets_cell_type`, lines 83-119) -/

/-- The identifiers of one resolved cell type: entity types are read through
`get_entities_by_type`, placed cell types through column 0 of
`get_cells_by_type`. -/
def typeIds (sc : Scaffold) (t : String) : List ℤ :=
  if (sc.typeDesc t).entity then sc.entitiesByType t
  else (sc.cellsByType t).map Cell.id

/-- The pooled identifier list of `_targets_cell_type`: the per-type lists
concatenated in declaration order (the single-type branch is the singleton
case of the same concatenation). -/
def allTypeIds (sc : Scaffold) (cellTypes : List String) : List ℤ :=
  (cellTypes.map (typeIds sc)).flatten

/-- The sampling threshold of `_targets_cell_type` (lines 109-111):
`getattr(self, "cell_fraction", getattr(self, "cell_count", n) / n)`. -/
def effectiveFraction (cellFraction : Option ℚ) (cellCount : Option ℕ)
    (n : ℕ) : ℚ :=
  match cellFraction with
  | some f => f
  | none => ((cellCount.getD n : ℕ) : ℚ) / (n : ℚ)

/-- `TargetsNeurons._targets_cell_type`. `u i` models the i-th entry of
`np.random.random_sample(n)` (a uniform draw in `[0, 1)`); the boolean mask
`u <= r_threshold` keeps each identifier independently. -/
def targetsCellType (sc : Scaffold) (cellTypes : List String)
    (cellFraction : Option ℚ) (cellCount : Option ℕ) (u : ℕ → ℚ) : List ℤ :=
  let ids := allTypeIds sc cellTypes
  let n := ids.length
  if n ≠ 0 then
    let r_threshold := effectiveFraction cellFraction cellCount n
    if r_threshold = 1 then ids
    else if r_threshold = 0 then []
    else (ids.enum.filter (fun p => decide (u p.1 ≤ r_threshold))).map Prod.snd
  else []

/-! ## Representatives strategy (`_targets_representatives`, lines 121-133) -/

/-- One entry of `self.adapter.cell_models`: its cell type's name, relay
flag, and the identifiers returned by `cell_type.get_ids()`. -/
structure AdapterCellType where
  name : String
  relay : Bool
  ids : List ℤ
deriving DecidableEq, Repr

/-- The contract of Python's `random.choice(seq)`: an element of the
sequence when it is non-empty; an `IndexError` (modelled as `none`) exactly
when the sequence is empty. -/
def ChoiceSpec (choice : List ℤ → Option ℤ) : Prop :=
  ∀ l : List ℤ, (choice l = none ↔ l = []) ∧ ∀ x, choice l = some x → x ∈ l

/-- `TargetsNeurons._targets_representatives`. The comprehension guard
`if len(target_ids) > 0` tests the length of the OUTER list, not of the
per-type `type_ids`, so it filters nothing: when the list of eligible types
is non-empty every type is passed to `random.choice`, and an eligible type
with an empty id list makes `random.choice` raise `IndexError` (the `none`
of `mapM`). When the list is empty the comprehension is empty anyway. -/
def targetsRepresentatives (cell_models : List AdapterCellType)
    (cellTypesFilter : Option (List String))
    (choice : List ℤ → Option ℤ) : Option (List ℤ) :=
  let target_types := cell_models.filter (fun m : AdapterCellType => !m.relay)
  let target_types :=
    match cellTypesFilter with
    | some cts => target_types.filter (fun m : AdapterCellType => decide (m.name ∈ cts))
    | none => target_types
  let target_ids := target_types.map AdapterCellType.ids
  if target_ids.length > 0 then
    target_ids.mapM choice
  else
    some []

/-! ## Explicit-id strategy (`_targets_by_id`, lines 135-136) -/

/-- `TargetsNeurons._targets_by_id`: return `self.targets` verbatim. -/
def targetsById (targets : List ℤ) : List ℤ :=
  targets

/-! ## By-label strategy (`_targets_by_label`, lines 138-154) -/

/-- A Python numeric value as it flows through lines 146-153: `np.ceil`
returns a numpy `float64` (whose integral value is carried here exactly),
while `cell_count` and `len(labelled)` are `int`s. The tag decides whether
`random.sample` later accepts the value as a count. -/
inductive PyCount where
  | int : ℤ → PyCount
  | float : ℤ → PyCount
deriving DecidableEq, Repr

/-- Python `min(n, total)` on line 152: the second operand is returned only
when it is strictly smaller, so a float64 first operand survives (with its
type) whenever it is at most `total`. -/
def pymin : PyCount → ℤ → PyCount
  | .int c, t => if t < c then .int t else .int c
  | .float c, t => if t < c then .int t else .float c

/-- Python `max(0, m)` on line 152: `m` is returned (keeping its type) only
when it is strictly positive, else the integer literal 0. -/
def pymax0 : PyCount → PyCount
  | .int c => if 0 < c then .int c else .int 0
  | .float c => if 0 < c then .float c else .int 0

/-- The Python value `n` after lines 146-152: `np.ceil(frac * total)` — a
numpy float64 — when a fraction is given, else `count`, else `total`,
passed through `max(0, min(n, total))` with Python's type-preserving
first-operand tie behavior. -/
def labelDrawCount (frac : Option ℚ) (count : Option ℕ) (total : ℕ) :
    PyCount :=
  let n : PyCount :=
    match frac with
    | some f => .float ⌈f * (total : ℚ)⌉
    | none =>
      match count with
      | some c => .int (c : ℤ)
      | none => .int (total : ℤ)
  pymax0 (pymin n (total : ℤ))

/-- `random.sample(list(labelled), n)` on line 153, applied to the Python
value `n` of line 152: an `int` count within `[0, len]` draws; an `int`
outside that range raises `ValueError`; a numpy float64 count passes the
range check but raises `TypeError` at `result = [None] * k` (a sequence
cannot be multiplied by a non-int, and `np.float64` has no index
conversion). A raised exception is `none`. -/
def pySample (sample : List ℤ → ℕ → List ℤ) (l : List ℤ) :
    PyCount → Option (List ℤ)
  | .int k =>
    if 0 ≤ k ∧ k ≤ (l.length : ℤ) then some (sample l k.toNat) else none
  | .float _ => none

/-- The integer draw count of the by-label paths that reach the draw: the
clamped `count` when given (and no fraction present), else the full
labelled population. -/
def intDrawCount (count : Option ℕ) (total : ℕ) : ℕ :=
  min (count.getD total) total

/-- The label groups actually iterated (line 141):
`chain(*map(self.scaffold.get_labels, self.labels))`. -/
def expandedLabels (sc : Scaffold) (labels : List String) : List String :=
  (labels.map sc.getLabels).flatten

/-- The contract of Python's `random.sample(population, k)` for
`k ≤ len(population)` over a duplicate-free population: a list of `k`
distinct elements of the population. -/
def SampleSpec (sample : List ℤ → ℕ → List ℤ) : Prop :=
  ∀ (l : List ℤ) (k : ℕ), k ≤ l.length → l.Nodup →
    (sample l k).length = k ∧ (sample l k).Nodup ∧ ∀ x ∈ sample l k, x ∈ l

/-- `TargetsNeurons._targets_by_label`: iterate the expanded labels,
compute the per-label Python count, draw with `random.sample`, and
accumulate the draws by `targets.extend` (concatenation, no
deduplication); an exception in any iteration aborts the whole call
(`none`). -/
def targetsByLabel (sc : Scaffold) (labels : List String) (frac : Option ℚ)
    (count : Option ℕ) (sample : List ℤ → ℕ → List ℤ) :
    Option (List ℤ) :=
  ((expandedLabels sc labels).mapM (fun label =>
    let labelled := sc.labelled label
    pySample sample labelled
      (labelDrawCount frac count labelled.length))).map List.flatten

/-! ## Section targetting (`TargetsSections`, lines 201-221) -/

/-- One sub-cellular compartment of a morphology, with its labels. -/
structure NeuronSection where
  sid : ℕ
  labels : List String
deriving DecidableEq, Repr

/-- The morphology data of one cell as read by `_section_target_default`:
all sections and the soma section(s). -/
structure MorphCell where
  sections : List NeuronSection
  soma : List NeuronSection
deriving DecidableEq, Repr

/-- The `section_count` configuration value: the literal string sentinel
`"all"` or a number. -/
inductive SectionCount where
  | all : SectionCount
  | num : ℕ → SectionCount
deriving DecidableEq, Repr

/-- The device-side state read and written by `TargetsSections`:
`section_targetting`, `section_count` and `section_type` are possibly-unset
attributes; `node_name` identifies the owning component and is never
touched by this class. -/
structure SectionDevice where
  node_name : String
  section_targetting : Option String
  section_count : Option SectionCount
  section_type : Option String
deriving DecidableEq, Repr

/-- Message of the generic `Exception` raised by `target_section` for an
unknown section-targetting strategy (lines 206-209); it interpolates only
the strategy name. Quote characters of the original format string are
elided. -/
def unknownSectionTargettingMessage (st : String) : String :=
  "Unknown section targetting type " ++ st

/-- The contract of `random.choice` over section lists: an element of the
sequence when non-empty, `IndexError` (`none`) exactly on the empty one. -/
def SectionChoiceSpec (choice : List NeuronSection → Option NeuronSection) :
    Prop :=
  ∀ l, (choice l = none ↔ l = []) ∧ ∀ s, choice l = some s → s ∈ l

/-- The candidate sections of `_section_target_default` (lines 215-218):
the cell's sections labelled `section_type` when that attribute is set,
else the cell's soma section(s). -/
def candidateSections (dev : SectionDevice) (cell : MorphCell) :
    List NeuronSection :=
  match dev.section_type with
  | some t => cell.sections.filter (fun s => decide (t ∈ s.labels))
  | none => cell.soma

/-- `TargetsSections._section_target_default`: assign `section_count := 1`
when the attribute is unset (a lasting write to the device), then return
every candidate section when the count is the `"all"` sentinel, else
`section_count` independent `random.choice` picks with replacement from the
candidates. Returns the result (`none` models the `IndexError` that
`random.choice` raises on an empty candidate list) together with the
updated device. -/
def sectionTargetDefault (dev : SectionDevice) (cell : MorphCell)
    (choice : List NeuronSection → Option NeuronSection) :
    Option (List NeuronSection) × SectionDevice :=
  let dev' :=
    if dev.section_count = none then
      { dev with section_count := some (.num 1) }
    else dev
  let sections := candidateSections dev' cell
  match dev'.section_count.getD (.num 1) with
  | .all => (some sections, dev')
  | .num k => ((List.range k).mapM (fun _ => choice sections), dev')

/-- The result side of `TargetsSections.target_section`: an unknown
strategy name raises (generic `Exception`), the known strategy `default`
delegates; the propagated `IndexError` of an empty `random.choice` is kept
as `none` inside `Except.ok` to separate the two failure kinds. -/
inductive SectionResult where
  | ok : List NeuronSection → SectionResult
  | indexError : SectionResult
  | unknownStrategy : String → SectionResult
deriving DecidableEq, Repr

/-- `TargetsSections.target_section` (lines 202-210): assign
`section_targetting := "default"` when the attribute is unset (a lasting
write to the device), then dispatch on `"_section_target_" ++ strategy`;
only `_section_target_default` exists, so any other name raises. Returns
the call's outcome together with the updated device. -/
def target_section (dev : SectionDevice) (cell : MorphCell)
    (choice : List NeuronSection → Option NeuronSection) :
    SectionResult × SectionDevice :=
  let dev' :=
    if dev.section_targetting = none then
      { dev with section_targetting := some "default" }
    else dev
  let st := dev'.section_targetting.getD "default"
  if st = "default" then
    let r := sectionTargetDefault dev' cell choice
    (match r.1 with
      | some sections => .ok sections
      | none => .indexError, r.2)
  else
    (.unknownStrategy st, dev')

/-! ## Sample data used by concrete evaluations -/

/-- A small scaffold for the cylinder scenario of the spec: network extents
X = Z = 100 (center (50, 50)), a granule cell at (52, 11, 53) and one at
(70, 0, 50), and one purkinje cell. -/
def cylScaffold : Scaffold where
  cellsByType := fun t =>
    if t = "granule" then [⟨7, 0, 52, 11, 53⟩, ⟨8, 0, 70, 0, 50⟩]
    else if t = "purkinje" then [⟨9, 1, 50, 0, 50⟩]
    else []
  entitiesByType := fun _ => []
  typeDesc := fun t => ⟨t, false, false⟩
  getLabels := fun l => [l]
  labelled := fun _ => []
  X := 100
  Z := 100

/-- A scaffold with one label group `active` of ten members, for the
by-label clamping scenario. -/
def activeScaffold : Scaffold where
  cellsByType := fun _ => []
  entitiesByType := fun _ => []
  typeDesc := fun t => ⟨t, false, false⟩
  getLabels := fun l => [l]
  labelled := fun l =>
    if l = "active" then [0, 1, 2, 3, 4, 5, 6, 7, 8, 9] else []
  X := 100
  Z := 100

/-- A scaffold whose granule cells lie at Euclidean distances 2, 6 and 4
from the origin, for the spatial-local scenario. -/
def locScaffold : Scaffold where
  cellsByType := fun t =>
    if t = "granule" then [⟨1, 0, 0, 0, 2⟩, ⟨2, 0, 6, 0, 0⟩, ⟨3, 0, 0, 4, 0⟩]
    else []
  entitiesByType := fun _ => []
  typeDesc := fun t => ⟨t, false, false⟩
  getLabels := fun l => [l]
  labelled := fun _ => []
  X := 100
  Z := 100

/-- Sections of the witness cell: a soma section and two dendrite sections,
one of them also labelled apical. -/
def sampleCell : MorphCell :=
  ⟨[⟨0, ["soma"]⟩, ⟨1, ["apical", "dendrite"]⟩, ⟨2, ["dendrite"]⟩],
   [⟨0, ["soma"]⟩]⟩

/-! ## Theorems -/

/-- C1: for every device, after `initialise_targets()` (resp.
`initialise_patterns()`) has completed on all processes, every process holds
the identical TargetSet (resp. PatternSet): rank 0 computes the value by
delegating to the resolver (resp. pattern generator), every other rank
contributes a `None` placeholder, and the collective broadcast overwrites
each rank's placeholder with rank 0's value, so `get_targets()` /
`get_patterns()` return bit-identical values on every rank. -/
theorem initialise_broadcast_replicates (α β : Type) (resolved : α)
    (patterns : β) (r r' : ℕ) (hr : r ≠ 0) :
    rankContribution resolved 0 = some resolved ∧
    rankContribution resolved r = none ∧
    initialise_targets resolved r = initialise_targets resolved r' ∧
    get_targets (initialise_targets resolved r) r = .ok (some resolved) ∧
    initialise_patterns patterns r = initialise_patterns patterns r' ∧
    get_patterns (initialise_patterns patterns r) r = .ok (some patterns) := by
  refine ⟨rfl, ?_, rfl, rfl, rfl, rfl⟩
  simp [rankContribution, hr]

/-- Witness for C1 at concrete inputs: ranks 2 and 5, a one-element target
list and an integer pattern value. -/
theorem initialise_broadcast_replicates_witness :
    rankContribution ([3] : List ℤ) 0 = some [3] ∧
    rankContribution ([3] : List ℤ) 2 = none ∧
    initialise_targets ([3] : List ℤ) 2 = initialise_targets [3] 5 ∧
    get_targets (initialise_targets ([3] : List ℤ) 2) 2 = .ok (some [3]) ∧
    initialise_patterns (7 : ℤ) 2 = initialise_patterns 7 5 ∧
    get_patterns (initialise_patterns (7 : ℤ) 2) 2 = .ok (some 7) :=
  initialise_broadcast_replicates (List ℤ) ℤ [3] 7 2 5 (by decide)

/-- C2: on every process where the corresponding initialise call has not
completed, `get_targets()` (resp. `get_patterns()`) raises a
`ParallelIntegrityError` that carries the calling process's rank and whose
message states that initialisation must always precede retrieval; once the
state is stored, the same call returns it and raises nothing. -/
theorem get_before_init_integrity (α β : Type) (pc : ℕ) (v : α) (p : β) :
    get_targets (PyAttr.unset : PyAttr α) pc =
      .error ⟨targetsCheckpointMessage, pc⟩ ∧
    get_patterns (PyAttr.unset : PyAttr β) pc =
      .error ⟨patternsCheckpointMessage, pc⟩ ∧
    get_targets (PyAttr.set v) pc = .ok v ∧
    get_patterns (PyAttr.set p) pc = .ok p ∧
    "`initialise_targets` should always be called before `get_targets`".data
      <:+: targetsCheckpointMessage.data ∧
    "`initialise_patterns` should always be called before `get_patterns`".data
      <:+: patternsCheckpointMessage.data :=
  ⟨rfl, rfl, rfl, rfl, by decide, by decide⟩

/-- C3: the cylinder strategy is exact on a single declared type — the spec
scenario cell at (52, _, 53) with X = Z = 100 and radius 10 is selected,
the cell at squared distance 400 is not — but with a two-type declared list
the code produces no value at all (the pooling loop raises a numpy
`ValueError` over mismatched column counts, and the filtering plus `return`
sit inside the single-type branch, so the multi-type path falls through
with `None`). -/
theorem cylinder_multi_type_no_result :
    targetsCylinder cylScaffold ["granule", "purkinje"] 10 = none ∧
    targetsCylinder cylScaffold ["granule"] 10 = some [7] := by
  refine ⟨rfl, ?_⟩
  norm_num [targetsCylinder, cylScaffold, List.filter]

/-- C4: `_targets_representatives` guards the comprehension with
`len(target_ids) > 0` — the length of the outer list of id lists, not of
the per-type list — so an eligible (non-relay) cell type with zero members
is still passed to `random.choice`, which raises `IndexError` on it; the
resolution fails instead of skipping the empty type. `List.head?` is a
conforming model of `random.choice` (first conjunct). -/
theorem representatives_empty_type_raises :
    ChoiceSpec List.head? ∧
    targetsRepresentatives
      [⟨"granule", false, []⟩, ⟨"purkinje", false, [5]⟩] none List.head? =
        none := by
  constructor
  · intro l
    refine ⟨List.head?_eq_none_iff, fun x hx => ?_⟩
    cases l with
    | nil => simp at hx
    | cons a t =>
      simp only [List.head?_cons, Option.some.injEq] at hx
      simp [hx]
  · rfl

/-- C5 counterexample: for the unknown section-targetting strategy name
`by_distance` on a device whose owning component is named `device_a`, the
raised error's message does not mention the owning component at all — the
claim that the section-targetting error names the owning component is
false on the code (lines 206-209 interpolate only the strategy name). -/
theorem section_error_component_counterexample :
    (target_section ⟨"device_a", some "by_distance", none, none⟩ ⟨[], []⟩
        (fun _ => none)).1 = .unknownStrategy "by_distance" ∧
    ¬ ("device_a".data <:+:
        (unknownSectionTargettingMessage "by_distance").data) :=
  ⟨rfl, by decide⟩

/-- C5 (amended): a strategy name not among the implemented neuron
targetting strategies makes `initialise` raise an error (a
`NotImplementedError`, not a `ConfigurationError`) whose message names both
the offending strategy and the owning component; an unknown
section-targetting strategy makes `target_section` raise a generic
`Exception` whose message names only the offending strategy. -/
theorem unknown_strategy_error_naming (t node st : String)
    (ht : t ∉ neuron_targetting_types) (hst : st ≠ "default")
    (dev : SectionDevice) (cell : MorphCell)
    (choice : List NeuronSection → Option NeuronSection)
    (hdev : dev.section_targetting = some st) :
    initialiseDispatch t node =
      .error (unimplementedTargettingMessage t node) ∧
    t.data <:+: (unimplementedTargettingMessage t node).data ∧
    node.data <:+: (unimplementedTargettingMessage t node).data ∧
    (target_section dev cell choice).1 = .unknownStrategy st ∧
    st.data <:+: (unknownSectionTargettingMessage st).data := by
  refine ⟨?_, ?_, ?_, ?_, ?_⟩
  · simp [initialiseDispatch, ht]
  · exact ⟨"Unimplemented neuron targetting type ".data,
      " in ".data ++ node.data, by
        simp [unimplementedTargettingMessage, String.data_append]⟩
  · exact ⟨("Unimplemented neuron targetting type " ++ t ++ " in ").data,
      [], by simp [unimplementedTargettingMessage, String.data_append]⟩
  · simp [target_section, hdev, hst]
  · exact ⟨"Unknown section targetting type ".data, [], by
      simp [unknownSectionTargettingMessage, String.data_append]⟩

/-- Witness for the amended C5 at concrete inputs: strategy `nearest` on
component `device_a`, and section strategy `by_distance`. -/
theorem unknown_strategy_error_naming_witness :
    initialiseDispatch "nearest" "device_a" =
      .error (unimplementedTargettingMessage "nearest" "device_a") ∧
    "nearest".data <:+:
      (unimplementedTargettingMessage "nearest" "device_a").data ∧
    "device_a".data <:+:
      (unimplementedTargettingMessage "nearest" "device_a").data ∧
    (target_section ⟨"device_b", some "by_distance", none, none⟩ ⟨[], []⟩
        (fun _ => none)).1 = .unknownStrategy "by_distance" ∧
    "by_distance".data <:+:
      (unknownSectionTargettingMessage "by_distance").data :=
  unknown_strategy_error_naming "nearest" "device_a" "by_distance"
    (by decide) (by decide) ⟨"device_b", some "by_distance", none, none⟩
    ⟨[], []⟩ (fun _ => none) rfl

/-- C6: in cell-type resolution the effective fraction is `cell_fraction`
when given, otherwise `cell_count / population` when given, otherwise 1
(the code computes `n / n` there); a fraction of exactly 1 returns all
identifiers of the declared types, a fraction of 0 returns the empty
result, any other fraction keeps the identifier at position i exactly when
the i-th uniform draw `u i` lies below it (independent per-identifier
Bernoulli acceptance with probability equal to the fraction for uniform
draws on `[0, 1)`), and an empty population returns an empty result rather
than failing. -/
theorem targets_cell_type_fraction_spec (sc : Scaffold)
    (cts : List String) (f? : Option ℚ) (c? : Option ℕ) (u : ℕ → ℚ) :
    (∀ g, f? = some g →
      effectiveFraction f? c? (allTypeIds sc cts).length = g) ∧
    (∀ c, f? = none → c? = some c →
      effectiveFraction f? c? (allTypeIds sc cts).length =
        (c : ℚ) / ((allTypeIds sc cts).length : ℚ)) ∧
    (f? = none → c? = none → allTypeIds sc cts ≠ [] →
      effectiveFraction f? c? (allTypeIds sc cts).length = 1) ∧
    (effectiveFraction f? c? (allTypeIds sc cts).length = 1 →
      targetsCellType sc cts f? c? u = allTypeIds sc cts) ∧
    (effectiveFraction f? c? (allTypeIds sc cts).length = 0 →
      targetsCellType sc cts f? c? u = []) ∧
    (allTypeIds sc cts = [] → targetsCellType sc cts f? c? u = []) ∧
    (effectiveFraction f? c? (allTypeIds sc cts).length ≠ 1 →
      effectiveFraction f? c? (allTypeIds sc cts).length ≠ 0 →
      targetsCellType sc cts f? c? u =
        ((allTypeIds sc cts).enum.filter (fun p =>
          decide (u p.1 ≤
            effectiveFraction f? c? (allTypeIds sc cts).length))).map
          Prod.snd) := by
  refine ⟨?_, ?_, ?_, ?_, ?_, ?_, ?_⟩
  · rintro g rfl
    rfl
  · rintro c rfl rfl
    rfl
  · rintro rfl rfl hne
    have hn : (allTypeIds sc cts).length ≠ 0 := by
      simpa [List.length_eq_zero] using hne
    simp only [effectiveFraction, Option.getD_none]
    exact div_self (by exact_mod_cast hn)
  · intro hf
    by_cases hn : (allTypeIds sc cts).length = 0
    · simp [targetsCellType, hn, List.length_eq_zero.mp hn]
    · simp [targetsCellType, hn, hf]
  · intro hf
    by_cases hn : (allTypeIds sc cts).length = 0
    · simp [targetsCellType, hn]
    · have h1 : effectiveFraction f? c? (allTypeIds sc cts).length ≠ 1 := by
        rw [hf]; norm_num
      simp [targetsCellType, hn, hf, h1]
  · intro h
    simp [targetsCellType, h]
  · intro hf1 hf0
    by_cases hn : (allTypeIds sc cts).length = 0
    · simp [targetsCellType, hn, List.length_eq_zero.mp hn]
    · simp [targetsCellType, hn, hf1, hf0]

/-- Witness for C6 at concrete inputs: fraction 1 returns the full pooled
population, fraction 0 the empty list, an undeclared type's empty
population the empty list, and fraction 1/2 keeps exactly the identifiers
whose uniform draw lies below 1/2. -/
theorem targets_cell_type_fraction_spec_witness :
    targetsCellType cylScaffold ["granule", "purkinje"] (some 1) none
      (fun _ => 1 / 2) = [7, 8, 9] ∧
    targetsCellType cylScaffold ["granule"] (some 0) none
      (fun _ => 1 / 2) = [] ∧
    targetsCellType cylScaffold ["absent"] none none (fun _ => 1 / 2) = [] ∧
    targetsCellType cylScaffold ["granule"] (some (1 / 2)) none
      (fun i => if i = 0 then 1 / 4 else 3 / 4) = [7] := by
  refine ⟨?_, ?_, ?_, ?_⟩
  · rw [(targets_cell_type_fraction_spec cylScaffold ["granule", "purkinje"]
      (some 1) none (fun _ => 1 / 2)).2.2.2.1 rfl]
    decide
  · exact (targets_cell_type_fraction_spec cylScaffold ["granule"]
      (some 0) none (fun _ => 1 / 2)).2.2.2.2.1 rfl
  · exact (targets_cell_type_fraction_spec cylScaffold ["absent"]
      none none (fun _ => 1 / 2)).2.2.2.2.2.1 (by decide)
  · rw [(targets_cell_type_fraction_spec cylScaffold ["granule"]
      (some (1 / 2)) none (fun i => if i = 0 then 1 / 4 else 3 / 4)).2.2.2.2.2.2
      (by norm_num [effectiveFraction]) (by norm_num [effectiveFraction])]
    norm_num [allTypeIds, cylScaffold, typeIds, List.enum, List.enumFrom,
      List.filter, effectiveFraction]

/-- Taking the first k elements satisfies the `random.sample` contract; it
serves as the concrete sampler of the witnesses. -/
theorem takeSampleSpec : SampleSpec (fun l k => l.take k) := by
  intro l k hk hnd
  exact ⟨by simp [List.length_take, Nat.min_eq_left hk],
    (List.take_sublist k l).nodup hnd,
    fun x hx => (List.take_sublist k l).subset hx⟩

/-- A `mapM` into `Option` whose function succeeds on every element
succeeds with the pointwise results. -/
theorem mapM_eq_some_map {α β : Type} (f : α → Option β) (g : α → β)
    (l : List α) (h : ∀ a ∈ l, f a = some (g a)) :
    l.mapM f = some (l.map g) := by
  induction l with
  | nil => rfl
  | cons a t ih =>
    rw [List.mapM_cons, h a (List.mem_cons_self a t),
      ih (fun b hb => h b (List.mem_cons_of_mem a hb))]
    rfl

/-- Without a fraction, the clamp of lines 146-152 yields an `int` holding
the clamped count. -/
theorem labelDrawCount_int (count : Option ℕ) (total : ℕ) :
    labelDrawCount none count total =
      .int ((intDrawCount count total : ℕ) : ℤ) := by
  rcases count with - | c <;>
    simp only [labelDrawCount, pymin, pymax0, intDrawCount, Option.getD_none,
      Option.getD_some] <;>
    split_ifs <;>
    simp only [PyCount.int.injEq] <;>
    split_ifs <;>
    simp only [PyCount.int.injEq] <;>
    omega

/-- C7: the by-label paths that reach the draw behave as claimed — the
per-label count is the given `count` clamped into [0, labelled population]
(else the full population), the draw is of distinct identifiers without
replacement so a count above the population returns exactly the population
(a permutation of it), and per-label draws are concatenated — but the
fraction path crashes instead of drawing: `np.ceil` yields a numpy float64,
`max(0, min(n, total))` returns that float unchanged whenever
`0 < ceil(frac * total) <= total`, and `random.sample` then raises
`TypeError` on the float count (first conjunct: a concrete crash with
fraction 1/2 on a ten-member label, for every sampler; second conjunct: the
general characterization). Only the degenerate fractions escape: a
nonpositive ceiling draws nothing and a ceiling above the population draws
the whole labelled set. -/
theorem targets_by_label_spec (sc : Scaffold) (labels : List String)
    (frac : Option ℚ) (count : Option ℕ) (sample : List ℤ → ℕ → List ℤ)
    (hs : SampleSpec sample)
    (hnd : ∀ lab, (sc.labelled lab).Nodup) :
    targetsByLabel activeScaffold ["active"] (some (1 / 2)) none sample =
      none ∧
    (∀ lab f, frac = some f →
      0 < ⌈f * ((sc.labelled lab).length : ℚ)⌉ →
      ⌈f * ((sc.labelled lab).length : ℚ)⌉ ≤ ((sc.labelled lab).length : ℤ) →
      pySample sample (sc.labelled lab)
        (labelDrawCount frac count (sc.labelled lab).length) = none) ∧
    (∀ lab f, frac = some f →
      ⌈f * ((sc.labelled lab).length : ℚ)⌉ ≤ 0 →
      pySample sample (sc.labelled lab)
        (labelDrawCount frac count (sc.labelled lab).length) = some []) ∧
    (∀ lab f, frac = some f →
      ((sc.labelled lab).length : ℤ) < ⌈f * ((sc.labelled lab).length : ℚ)⌉ →
      pySample sample (sc.labelled lab)
        (labelDrawCount frac count (sc.labelled lab).length) =
          some (sample (sc.labelled lab) (sc.labelled lab).length) ∧
      (sample (sc.labelled lab) (sc.labelled lab).length).Perm
        (sc.labelled lab)) ∧
    (frac = none → ∀ lab,
      pySample sample (sc.labelled lab)
        (labelDrawCount frac count (sc.labelled lab).length) =
          some (sample (sc.labelled lab)
            (intDrawCount count (sc.labelled lab).length)) ∧
      (sample (sc.labelled lab)
        (intDrawCount count (sc.labelled lab).length)).length =
          intDrawCount count (sc.labelled lab).length ∧
      intDrawCount count (sc.labelled lab).length ≤
        (sc.labelled lab).length ∧
      (sample (sc.labelled lab)
        (intDrawCount count (sc.labelled lab).length)).Nodup ∧
      (∀ x ∈ sample (sc.labelled lab)
          (intDrawCount count (sc.labelled lab).length),
        x ∈ sc.labelled lab) ∧
      (∀ c, count = some c → (sc.labelled lab).length ≤ c →
        (sample (sc.labelled lab)
          (intDrawCount count (sc.labelled lab).length)).Perm
            (sc.labelled lab))) ∧
    (frac = none →
      targetsByLabel sc labels frac count sample =
        some (((expandedLabels sc labels).map (fun lab =>
          sample (sc.labelled lab)
            (intDrawCount count (sc.labelled lab).length))).flatten)) := by
  have hkle : ∀ total, intDrawCount count total ≤ total :=
    fun total => Nat.min_le_right _ _
  have hpsAll : ∀ lab,
      pySample sample (sc.labelled lab)
        (labelDrawCount none count (sc.labelled lab).length) =
        some (sample (sc.labelled lab)
          (intDrawCount count (sc.labelled lab).length)) := by
    intro lab
    rw [labelDrawCount_int]
    have h1 : (0 : ℤ) ≤
        ((intDrawCount count (sc.labelled lab).length : ℕ) : ℤ) :=
      Int.natCast_nonneg _
    have h2 : ((intDrawCount count (sc.labelled lab).length : ℕ) : ℤ) ≤
        ((sc.labelled lab).length : ℤ) := by
      exact_mod_cast hkle _
    simp [pySample, h1, h2]
  refine ⟨?_, ?_, ?_, ?_, ?_, ?_⟩
  · have hceil : (⌈(1 / 2 : ℚ) * ((10 : ℕ) : ℚ)⌉ : ℤ) = 5 := by norm_num
    have hceil2 : (⌈(1 / 2 : ℚ) * (10 : ℚ)⌉ : ℤ) = 5 := by norm_num
    have hceil3 : (⌈(2⁻¹ : ℚ) * (10 : ℚ)⌉ : ℤ) = 5 := by norm_num
    have hdc : labelDrawCount (some (1 / 2)) none
        (activeScaffold.labelled "active").length = .float 5 := by
      have hlen : (activeScaffold.labelled "active").length = 10 := rfl
      rw [hlen]
      simp [labelDrawCount, pymin, pymax0, hceil, hceil2, hceil3]
    have hf : pySample sample (activeScaffold.labelled "active")
        (labelDrawCount (some (1 / 2)) none
          (activeScaffold.labelled "active").length) = none := by
      rw [hdc]
      rfl
    have hexp : expandedLabels activeScaffold ["active"] = ["active"] := rfl
    simp only [targetsByLabel, hexp, List.mapM_cons, List.mapM_nil, hf]
    rfl
  · rintro lab f rfl h0 hle
    have hnl : ¬ ((sc.labelled lab).length : ℤ) <
        ⌈f * ((sc.labelled lab).length : ℚ)⌉ := not_lt.mpr hle
    simp [labelDrawCount, pymin, pymax0, pySample, hnl, h0]
  · rintro lab f rfl hle
    have hnl : ¬ ((sc.labelled lab).length : ℤ) <
        ⌈f * ((sc.labelled lab).length : ℚ)⌉ :=
      not_lt.mpr (hle.trans (Int.natCast_nonneg _))
    have hn0 : ¬ (0 : ℤ) < ⌈f * ((sc.labelled lab).length : ℚ)⌉ :=
      not_lt.mpr hle
    have hdraw : sample (sc.labelled lab) 0 = [] :=
      List.length_eq_zero.mp
        (hs (sc.labelled lab) 0 (Nat.zero_le _) (hnd lab)).1
    simp [labelDrawCount, pymin, pymax0, pySample, hnl, hn0, hdraw]
  · rintro lab f rfl hgt
    have hdc : labelDrawCount (some f) count (sc.labelled lab).length =
        .int ((sc.labelled lab).length : ℤ) := by
      simp only [labelDrawCount, pymin, pymax0, if_pos hgt]
      split_ifs with h
      · rfl
      · have h0 : ((sc.labelled lab).length : ℤ) = 0 := by omega
        rw [h0]
    obtain ⟨hlen, hdup, hsub⟩ :=
      hs (sc.labelled lab) (sc.labelled lab).length le_rfl (hnd lab)
    constructor
    · rw [hdc]
      simp [pySample]
    · exact (hdup.subperm fun x hx => hsub x hx).perm_of_length_le
        (le_of_eq hlen.symm)
  · rintro rfl lab
    refine ⟨hpsAll lab, ?_⟩
    obtain ⟨hlen, hdup, hsub⟩ :=
      hs (sc.labelled lab) (intDrawCount count (sc.labelled lab).length)
        (hkle _) (hnd lab)
    refine ⟨hlen, hkle _, hdup, hsub, ?_⟩
    rintro c rfl hc
    have hmin : intDrawCount (some c) (sc.labelled lab).length =
        (sc.labelled lab).length := by
      simp only [intDrawCount, Option.getD_some]
      omega
    rw [hmin] at hlen hdup hsub ⊢
    exact (hdup.subperm fun x hx => hsub x hx).perm_of_length_le
      (le_of_eq hlen.symm)
  · rintro rfl
    have heq := mapM_eq_some_map
      (fun label => pySample sample (sc.labelled label)
        (labelDrawCount none count (sc.labelled label).length))
      (fun lab => sample (sc.labelled lab)
        (intDrawCount count (sc.labelled lab).length))
      (expandedLabels sc labels)
      (fun lab _ => hpsAll lab)
    simp only [targetsByLabel]
    rw [heq]
    rfl

/-- Witness for C7: on the ten-member label `active`, `cell_fraction = 0.5`
crashes the resolution (for the concrete first-k sampler too), while
`cell_count = 15` draws the clamped ten members — all of them, no
duplicates, a permutation of the labelled set. -/
theorem targets_by_label_spec_witness :
    targetsByLabel activeScaffold ["active"] (some (1 / 2)) none
      (fun l k => l.take k) = none ∧
    targetsByLabel activeScaffold ["active"] none (some 15)
      (fun l k => l.take k) = some [0, 1, 2, 3, 4, 5, 6, 7, 8, 9] ∧
    ((fun (l : List ℤ) (k : ℕ) => l.take k) (activeScaffold.labelled "active")
      (intDrawCount (some 15)
        (activeScaffold.labelled "active").length)).Perm
      (activeScaffold.labelled "active") := by
  have hnd : ∀ lab, (activeScaffold.labelled lab).Nodup := by
    intro lab
    by_cases h : lab = "active"
    · simp only [activeScaffold, h, if_pos]
      decide
    · simp [activeScaffold, h]
  have h := targets_by_label_spec activeScaffold ["active"] none (some 15)
    (fun l k => l.take k) takeSampleSpec hnd
  exact ⟨h.1, by decide,
    (h.2.2.2.2.1 rfl "active").2.2.2.2.2 15 rfl (by decide)⟩

/-- Membership in the single-type spatial-local result is exactly having a
cell of the type at squared distance at most radius squared. -/
theorem mem_targetsLocal_single {sc : Scaffold} {t : String}
    {o : ℚ × ℚ × ℚ} {r : ℚ} {i : ℤ} :
    i ∈ (targetsLocal sc [t] o r).getD [] ↔
      ∃ c ∈ sc.cellsByType t, c.id = i ∧ dist2 c o ≤ r ^ 2 := by
  unfold targetsLocal queryRadius
  simp only [Option.getD_some]
  rw [List.mem_filterMap]
  constructor
  · rintro ⟨j, hj, hc⟩
    rw [List.mem_map] at hj
    obtain ⟨p, hp, hfst⟩ := hj
    rw [List.mem_filter] at hp
    obtain ⟨hpe, hpd⟩ := hp
    obtain ⟨c0, hc0, hcid⟩ := Option.map_eq_some'.mp hc
    have hj' : (sc.cellsByType t)[p.1]? = some p.2 :=
      List.mk_mem_enum_iff_getElem?.mp hpe
    have hc0' : (sc.cellsByType t)[j]? = some c0 := by
      rw [← List.get?_eq_getElem?]
      exact hc0
    rw [hfst] at hj'
    rw [hj'] at hc0'
    obtain rfl : p.2 = c0 := by
      exact Option.some.injEq _ _ ▸ hc0'.symm ▸ rfl
    refine ⟨p.2, List.getElem?_mem hj', hcid, ?_⟩
    exact of_decide_eq_true hpd
  · rintro ⟨c, hc, hid, hdist⟩
    obtain ⟨j, hj⟩ := List.mem_iff_getElem?.mp hc
    refine ⟨j, ?_, ?_⟩
    · rw [List.mem_map]
      refine ⟨(j, c), ?_, rfl⟩
      rw [List.mem_filter]
      exact ⟨List.mk_mem_enum_iff_getElem?.mpr hj, decide_eq_true hdist⟩
    · rw [List.get?_eq_getElem?, hj]
      simp [hid]

/-- C8: on a single declared cell type, spatial-local resolution returns
exactly the identifiers of the cells whose Euclidean 3D distance to
`origin` is at most `r` (closed sphere, squared comparison), and for
`0 ≤ r₁ ≤ r₂` the result for `r₁` is contained in the result for `r₂`.
On a list of two or more declared types, however, the code produces no
value at all: the pooling loop's `np.vstack((np.empty((0, 5)),
cells[:, 2:5]))` raises a numpy `ValueError` before any query is made
(first conjunct, at a concrete two-type input). -/
theorem targets_local_spec :
    targetsLocal cylScaffold ["granule", "purkinje"] (0, 0, 0) 100 = none ∧
    (∀ (sc : Scaffold) (t : String) (o : ℚ × ℚ × ℚ) (r : ℚ) (i : ℤ),
      i ∈ (targetsLocal sc [t] o r).getD [] ↔
        ∃ c ∈ sc.cellsByType t, c.id = i ∧ dist2 c o ≤ r ^ 2) ∧
    (∀ (sc : Scaffold) (t : String) (o : ℚ × ℚ × ℚ) (r₁ r₂ : ℚ),
      0 ≤ r₁ → r₁ ≤ r₂ →
      (targetsLocal sc [t] o r₁).getD [] ⊆
        (targetsLocal sc [t] o r₂).getD []) := by
  refine ⟨rfl, fun sc t o r i => mem_targetsLocal_single, ?_⟩
  intro sc t o r₁ r₂ h0 h12 i hi
  rw [mem_targetsLocal_single] at hi ⊢
  obtain ⟨c, hc, hid, hd⟩ := hi
  exact ⟨c, hc, hid, hd.trans (pow_le_pow_left₀ h0 h12 2)⟩

/-- Witness for C8: with cells at distances 2, 6, 4 and radius 5, the cell
at distance 2 is targeted, and the radius-2 result is contained in the
radius-5 result. -/
theorem targets_local_spec_witness :
    (1 : ℤ) ∈ (targetsLocal locScaffold ["granule"] (0, 0, 0) 5).getD [] ∧
    (targetsLocal locScaffold ["granule"] (0, 0, 0) 2).getD [] ⊆
      (targetsLocal locScaffold ["granule"] (0, 0, 0) 5).getD [] := by
  constructor
  · exact (targets_local_spec.2.1 locScaffold "granule" (0, 0, 0) 5 1).mpr
      ⟨⟨1, 0, 0, 0, 2⟩, by simp [locScaffold], rfl, by norm_num [dist2]⟩
  · exact targets_local_spec.2.2 locScaffold "granule" (0, 0, 0) 2 5
      (by norm_num) (by norm_num)

/-- The head of a list is a conforming `random.choice` over sections. -/
theorem headSectionChoiceSpec : SectionChoiceSpec List.head? := by
  intro l
  refine ⟨List.head?_eq_none_iff, fun s hs => ?_⟩
  cases l with
  | nil => simp at hs
  | cons a t =>
    simp only [List.head?_cons, Option.some.injEq] at hs
    simp [hs]

/-- Repeated choice from a fixed non-empty list with a conforming
`random.choice` succeeds and yields one in-list pick per iteration. -/
theorem mapM_const_choice (choice : List NeuronSection → Option NeuronSection)
    (hc : SectionChoiceSpec choice) (sections : List NeuronSection)
    (hne : sections ≠ []) (l : List ℕ) :
    ∃ picks, l.mapM (fun _ => choice sections) = some picks ∧
      picks.length = l.length ∧ ∀ s ∈ picks, s ∈ sections := by
  induction l with
  | nil => exact ⟨[], rfl, rfl, by simp⟩
  | cons a t ih =>
    obtain ⟨picks, hp, hlen, hmem⟩ := ih
    obtain ⟨x, hx⟩ : ∃ x, choice sections = some x := by
      rcases h : choice sections with - | x
      · exact absurd ((hc sections).1.mp h) hne
      · exact ⟨x, rfl⟩
    refine ⟨x :: picks, ?_, by simp [hlen], ?_⟩
    · rw [List.mapM_cons, hp, hx]
      rfl
    · intro s hs
      rcases List.mem_cons.mp hs with rfl | hs
      · exact (hc sections).2 _ hx
      · exact hmem s hs

/-- C9: under the default section-targetting strategy the candidate set is
the cell's sections labelled `section_type` when that attribute is set and
the cell's soma section(s) otherwise; with the `"all"` sentinel the result
is exactly the candidate set, independent of any randomness; with a numeric
count k (and a non-empty candidate set) the result is exactly k independent
`random.choice` picks with replacement from the candidate set; and an
unset `section_count` defaults to one pick. -/
theorem section_target_default_spec (dev : SectionDevice) (cell : MorphCell)
    (choice : List NeuronSection → Option NeuronSection)
    (hc : SectionChoiceSpec choice) :
    (∀ t, dev.section_type = some t →
      candidateSections dev cell =
        cell.sections.filter (fun s => decide (t ∈ s.labels))) ∧
    (dev.section_type = none → candidateSections dev cell = cell.soma) ∧
    (dev.section_count = some .all →
      (sectionTargetDefault dev cell choice).1 =
        some (candidateSections dev cell)) ∧
    (∀ k, dev.section_count = some (.num k) →
      candidateSections dev cell ≠ [] →
      ∃ picks, (sectionTargetDefault dev cell choice).1 = some picks ∧
        picks.length = k ∧ ∀ s ∈ picks, s ∈ candidateSections dev cell) ∧
    (dev.section_count = none → candidateSections dev cell ≠ [] →
      ∃ picks, (sectionTargetDefault dev cell choice).1 = some picks ∧
        picks.length = 1 ∧ ∀ s ∈ picks, s ∈ candidateSections dev cell) := by
  refine ⟨?_, ?_, ?_, ?_, ?_⟩
  · intro t ht
    unfold candidateSections
    rw [ht]
  · intro ht
    unfold candidateSections
    rw [ht]
  · intro h
    simp [sectionTargetDefault, h]
  · intro k hk hne
    obtain ⟨picks, hp, hlen, hmem⟩ :=
      mapM_const_choice choice hc (candidateSections dev cell) hne
        (List.range k)
    refine ⟨picks, ?_, by simpa using hlen, hmem⟩
    have hp' : (sectionTargetDefault dev cell choice).1 =
        List.mapM (fun _ => choice (candidateSections dev cell))
          (List.range k) := by
      simp [sectionTargetDefault, hk]
    rw [hp', hp]
  · intro h hne
    have hsec : candidateSections
        { dev with section_count := some (.num 1) } cell =
          candidateSections dev cell := rfl
    obtain ⟨picks, hp, hlen, hmem⟩ :=
      mapM_const_choice choice hc (candidateSections dev cell) hne
        (List.range 1)
    refine ⟨picks, ?_, by simpa using hlen, hmem⟩
    have hp' : (sectionTargetDefault dev cell choice).1 =
        List.mapM (fun _ => choice (candidateSections dev cell))
          (List.range 1) := by
      simp [sectionTargetDefault, h, hsec]
    rw [hp', hp]

/-- Witness for C9: with `section_type = dendrite` and the `"all"` sentinel
the two dendrite sections come back exactly; with `section_count` unset the
default is a single in-candidate pick. -/
theorem section_target_default_spec_witness :
    (sectionTargetDefault
      ⟨"dev1", some "default", some .all, some "dendrite"⟩ sampleCell
        List.head?).1 =
      some [⟨1, ["apical", "dendrite"]⟩, ⟨2, ["dendrite"]⟩] ∧
    ∃ picks,
      (sectionTargetDefault ⟨"dev1", some "default", none, some "dendrite"⟩
        sampleCell List.head?).1 = some picks ∧
      picks.length = 1 ∧
      ∀ s ∈ picks,
        s ∈ candidateSections
          ⟨"dev1", some "default", none, some "dendrite"⟩ sampleCell := by
  constructor
  · rw [(section_target_default_spec
      ⟨"dev1", some "default", some .all, some "dendrite"⟩ sampleCell
      List.head? headSectionChoiceSpec).2.2.1 rfl]
    decide
  · exact (section_target_default_spec
      ⟨"dev1", some "default", none, some "dendrite"⟩ sampleCell
      List.head? headSectionChoiceSpec).2.2.2.2 rfl (by decide)

/-- C10: `target_section` permanently assigns `section_targetting :=
"default"` when that attribute is absent, and (within the default strategy)
permanently assigns 1 to an absent `section_count`; these defaults remain
for every later call (a second call leaves the device unchanged and
recomputes the same result); apart from those two attributes the device's
other fields are untouched, and the returned section set is not stored
anywhere on the device. -/
theorem target_section_state_effects (dev : SectionDevice) (cell : MorphCell)
    (choice : List NeuronSection → Option NeuronSection) :
    ((target_section dev cell choice).2.section_targetting =
      some (dev.section_targetting.getD "default")) ∧
    (dev.section_targetting.getD "default" = "default" →
      (target_section dev cell choice).2.section_count =
        some (dev.section_count.getD (.num 1))) ∧
    (dev.section_targetting.getD "default" ≠ "default" →
      (target_section dev cell choice).2.section_count =
        dev.section_count) ∧
    ((target_section dev cell choice).2.section_type = dev.section_type) ∧
    ((target_section dev cell choice).2.node_name = dev.node_name) ∧
    (target_section ((target_section dev cell choice).2) cell choice =
      ((target_section dev cell choice).1,
       (target_section dev cell choice).2)) := by
  obtain ⟨nn, stg, cnt, sty⟩ := dev
  rcases stg with - | st
  · rcases cnt with - | c
    · simp [target_section, sectionTargetDefault]
    · rcases c with - | k <;>
        simp [target_section, sectionTargetDefault]
  · by_cases hst : st = "default"
    · subst hst
      rcases cnt with - | c
      · simp [target_section, sectionTargetDefault]
      · rcases c with - | k <;>
          simp [target_section, sectionTargetDefault]
    · rcases cnt with - | c <;>
        simp [target_section, sectionTargetDefault, hst]

/-- Witness for C10: on a device with both attributes absent, the call
stores `section_targetting = "default"` and `section_count = 1`, and a
second call changes nothing and returns the same result. -/
theorem target_section_state_effects_witness :
    ((target_section ⟨"dev2", none, none, none⟩ sampleCell
        List.head?).2.section_count = some (.num 1)) ∧
    (target_section ((target_section ⟨"dev2", none, none, none⟩ sampleCell
        List.head?).2) sampleCell List.head? =
      ((target_section ⟨"dev2", none, none, none⟩ sampleCell List.head?).1,
       (target_section ⟨"dev2", none, none, none⟩ sampleCell
         List.head?).2)) :=
  ⟨(target_section_state_effects ⟨"dev2", none, none, none⟩ sampleCell
      List.head?).2.1 rfl,
   (target_section_state_effects ⟨"dev2", none, none, none⟩ sampleCell
      List.head?).2.2.2.2.2⟩

end BSB
